import Mathlib

/-!
Shallow embedding of the MIDI image-build graph compiler (`pkg/ir`, file
`part_000`) and of the shell bootstrap manager (`pkg/shell/zsh.go`).

Build states (`llb.State`) are modelled as a syntax tree of the build-graph
primitives the code uses: `Image`, `Scratch`, `Local`, `Run` (with persistent
cache mounts), `Diff`, `Merge`, and `File` actions (`Mkdir`, `Mkfile`, `Copy`).

Go pointer-receiver mutation of the `Graph` (the append inside
`compileCUDAPackages`) is modelled by explicit state passing: the method
returns the updated `Graph` together with its result.  `Compile` has a value
receiver in Go, so it operates on a copy of the caller's `Graph`: the caller's
descriptor is never changed by a compilation (the appended slice is
reallocated, since the default slice literal has length equal to capacity).

A nil-pointer dereference (possible in `compileCUDAPackages` when exactly one
of `CUDA`/`CUDNN` is nil) is modelled as `none`.
-/

namespace MidiIR

/-- Cache sharing mode; the code only ever uses `llb.CacheMountShared`. -/
inductive CacheMode where
  | shared
  deriving DecidableEq, Repr

/-- One `AddMount(target, llb.Scratch(), llb.AsPersistentCacheDir(id, mode))`
call attached to a `Run`. -/
structure CacheMount where
  target : String
  cacheID : String
  mode : CacheMode
  deriving DecidableEq, Repr

mutual
/-- The `llb.State` build-graph syntax the compiler emits. -/
inductive State where
  | image (ref : String)
  | scratch
  | localDir (name : String)
  | run (base : State) (command : String) (mounts : List CacheMount)
  | diff (lower upper : State)
  | merge (inputs : List State)
  | file (base : State) (action : FileAction)

/-- The `llb.File` actions the compiler emits. -/
inductive FileAction where
  | mkdir (path : String) (mode : Nat) (withParents : Bool)
  | mkfile (path : String) (mode : Nat) (content : String)
  | copy (src : State) (srcPath : String) (destPath : String) (createDestPath : Bool)
end

/-- The `ir.Graph` configuration record (the Environment Descriptor), with the
fields the compiler reads.  VSCode plugin identifiers are kept in their
canonical string form (`p.String()` in the source). -/
structure Graph where
  OS : String
  Language : String
  CUDA : Option String
  CUDNN : Option String
  BuiltinSystemPackages : List String
  PyPIPackages : List String
  SystemPackages : List String
  VSCodePlugins : List String
  UbuntuAPTSource : Option String
  PyPIMirror : Option String
  deriving DecidableEq, Repr

/-- Modelled from the spec: `osDefault`, the fixed baseline OS identifier, is
declared outside the visible source; the spec's end-to-end scenario uses
`ubuntu20.04`. -/
def osDefault : String := "ubuntu20.04"

/-- Modelled from the spec: `languageDefault`, the fixed baseline language
identifier, is declared outside the visible source; the spec's scenario uses
`python`. -/
def languageDefault : String := "python"

/-- Modelled from the spec: `aptSourceFilePath`, the OS package manager's
conventional source-list location (declared outside the visible source). -/
def aptSourceFilePath : String := "/etc/apt/sources.list"

/-- Modelled from the spec: `pypiMirrorFilePath`, the language package
manager's conventional per-user config location (declared outside the visible
source). -/
def pypiMirrorFilePath : String := "/root/.config/pip/pip.conf"

/-- Modelled from the spec: `pypiConfigTemplate` is a format string with one
`%s` hole for the mirror URL; its exact text is declared outside the visible
source, so the template is kept abstract as a prefix and a suffix around the
hole. -/
def pypiConfig (mirror : String) : String :=
  "[global]\nindex-url=" ++ mirror ++ "\n"

/-- `filepath.Dir`, restricted to the slash-separated absolute paths the
compiler passes it. -/
def parentDir (p : String) : String :=
  String.intercalate "/" ((p.splitOn "/").dropLast)

/-- `ir.NewGraph`: the default Environment Descriptor. -/
def NewGraph : Graph :=
  { OS := osDefault
    Language := languageDefault
    CUDA := none
    CUDNN := none
    BuiltinSystemPackages := ["curl", "openssh-client"]
    PyPIPackages := []
    SystemPackages := []
    VSCodePlugins := []
    UbuntuAPTSource := none
    PyPIMirror := none }

/-- The process-wide configuration and external collaborators the compiler
consults: the auxiliary-tool image name (`viper.GetString(flag.FlagSSHImage)`),
the local cache source name (`flag.FlagCacheDir`), the plugin cache
collaborator (`vscodeClient.DownloadOrCache`, which may fail, and
`vscodeClient.PluginPath`). -/
structure ExternalEnv where
  sshImage : String
  cacheDir : String
  download : String → Except String Unit
  pluginPath : String → String

/-- `errors.Wrap(err, msg)`: the reported message is the context followed by
the underlying error. -/
def wrapErr (msg cause : String) : String := msg ++ ": " ++ cause

/-- `Graph.compileCUDAPackages` (pointer receiver): appends the language and
its pip binary to the built-in package list and returns the CUDA base image.
Dereferencing a nil `CUDA`/`CUDNN` field is modelled as `none`. -/
def Graph.compileCUDAPackages (g : Graph) : Option (Graph × State) :=
  match g.CUDA, g.CUDNN with
  | some cuda, some cudnn =>
      some
        ({ g with BuiltinSystemPackages :=
            g.BuiltinSystemPackages ++ [g.Language, g.Language ++ "-pip"] },
         State.image ("nvidia/cuda:" ++ cuda ++ ".0-cudnn" ++ cudnn ++ "-devel-" ++ g.OS))
  | _, _ => none

/-- `Graph.compileBase` (pointer receiver): baseline interpreter image when
both GPU fields are nil, otherwise the CUDA path. -/
def Graph.compileBase (g : Graph) : Option (Graph × State) :=
  if g.CUDA = none ∧ g.CUDNN = none then
    some (g, State.image "docker.io/library/python:3.8")
  else
    g.compileCUDAPackages

/-- The shared APT cache mounts attached to both system-package installs. -/
def aptCacheMounts : List CacheMount :=
  [{ target := "/var/cache/apt", cacheID := "//var/cache/apt", mode := .shared },
   { target := "/var/lib/apt", cacheID := "//var/lib/apt", mode := .shared }]

/-- The pip cache mount attached to the PyPI install. -/
def pipCacheMounts : List CacheMount :=
  [{ target := "/root/.cache/pip", cacheID := "//root/.cache/pip", mode := .shared }]

/-- The update-and-install prefix seeded into the `strings.Builder` by
`compileBuiltinSystemPackages`. -/
def builtinPrefix : String :=
  "sh -c \"apt-get update && apt-get install -y --no-install-recommends"

/-- The command string built by `compileBuiltinSystemPackages`:
`strings.Builder` seeded with the update-and-install prefix, then ` %s` per
package, then a closing quote. -/
def builtinInstallCmd (pkgs : List String) : String :=
  (pkgs.foldl (fun acc p => acc ++ " " ++ p) builtinPrefix) ++ "\""

/-- `Graph.compileBuiltinSystemPackages`: update-then-install of the built-in
package list with APT cache mounts; passthrough when the list is empty. -/
def Graph.compileBuiltinSystemPackages (g : Graph) (root : State) : State :=
  if g.BuiltinSystemPackages = [] then root
  else State.run root (builtinInstallCmd g.BuiltinSystemPackages) aptCacheMounts

/-- The command string built by `compilePyPIPackages`. -/
def pypiInstallCmd (pkgs : List String) : String :=
  pkgs.foldl (fun acc p => acc ++ " " ++ p) "pip install"

/-- `Graph.compilePyPIPackages`: pip install of the language package list with
a pip cache mount; passthrough when the list is empty. -/
def Graph.compilePyPIPackages (g : Graph) (root : State) : State :=
  if g.PyPIPackages = [] then root
  else State.run root (pypiInstallCmd g.PyPIPackages) pipCacheMounts

/-- The command string built by `compileSystemPackages`. -/
def systemInstallCmd (pkgs : List String) : String :=
  pkgs.foldl (fun acc p => acc ++ " " ++ p) "apt install"

/-- `Graph.compileSystemPackages`: plain install of the user system package
list with APT cache mounts; passthrough when the list is empty. -/
def Graph.compileSystemPackages (g : Graph) (root : State) : State :=
  if g.SystemPackages = [] then root
  else State.run root (systemInstallCmd g.SystemPackages) aptCacheMounts

/-- `Graph.compileUbuntuAPT`: when a custom APT source is configured, merge an
isolated file layer holding it at `aptSourceFilePath`; passthrough otherwise. -/
def Graph.compileUbuntuAPT (g : Graph) (root : State) : State :=
  match g.UbuntuAPTSource with
  | some src =>
      State.merge
        [root,
         State.file
           (State.file State.scratch (.mkdir (parentDir aptSourceFilePath) 0o755 true))
           (.mkfile aptSourceFilePath 0o644 src)]
  | none => root

/-- `Graph.compilePyPIMirror`: when a custom PyPI mirror is configured, merge
an isolated file layer holding the templated config at `pypiMirrorFilePath`;
passthrough otherwise. -/
def Graph.compilePyPIMirror (g : Graph) (root : State) : State :=
  match g.PyPIMirror with
  | some mirror =>
      State.merge
        [root,
         State.file
           (State.file State.scratch (.mkdir (parentDir pypiMirrorFilePath) 0o755 true))
           (.mkfile pypiMirrorFilePath 0o644 (pypiConfig mirror))]
  | none => root

/-- `Graph.copyMidiSSHServer`: the unconditional auxiliary-tool layer, copying
the SSH server binary out of the configured image onto scratch. -/
def Graph.copyMidiSSHServer (_g : Graph) (E : ExternalEnv) : State :=
  State.file State.scratch
    (.copy (State.image E.sshImage) "usr/bin/midi-ssh" "/var/midi/bin/midi-ssh" true)

/-- The per-plugin extension layer built inside `compileVSCode`'s loop. -/
def vscodeExtLayer (E : ExternalEnv) (p : String) : State :=
  State.file State.scratch
    (.copy (State.localDir E.cacheDir) (E.pluginPath p)
      ("/root/.vscode-server/extensions/" ++ p) true)

/-- The loop body of `compileVSCode`: download each plugin in order, stopping
at the first failure, and collect the per-plugin layers. -/
def vscodeLayers (E : ExternalEnv) : List String → Except String (List State)
  | [] => .ok []
  | p :: ps =>
      match E.download p with
      | .error e => .error e
      | .ok _ =>
          match vscodeLayers E ps with
          | .error e => .error e
          | .ok rest => .ok (vscodeExtLayer E p :: rest)

/-- `Graph.compileVSCode`: `none` when no plugins are requested, otherwise the
merge of the per-plugin layers; a download failure is returned as-is. -/
def Graph.compileVSCode (g : Graph) (E : ExternalEnv) : Except String (Option State) :=
  if g.VSCodePlugins = [] then .ok none
  else
    match vscodeLayers E g.VSCodePlugins with
    | .error e => .error e
    | .ok layers => .ok (some (State.merge layers))

/-- `Graph.Compile` (value receiver): the Graph Assembler.  The descriptor
copy updated by base selection feeds every later stage. -/
def Graph.Compile (g : Graph) (E : ExternalEnv) : Except String State :=
  match g.compileBase with
  | none => .error "runtime error: invalid memory address or nil pointer dereference"
  | some (g', base) =>
      let aptStage := g'.compileUbuntuAPT base
      let builtinSystemStage := g'.compileBuiltinSystemPackages aptStage
      let pypiMirrorStage := g'.compilePyPIMirror builtinSystemStage
      let pypiStage := State.diff aptStage (g'.compilePyPIPackages pypiMirrorStage)
      let systemStage := State.diff aptStage (g'.compileSystemPackages aptStage)
      let sshStage := g'.copyMidiSSHServer E
      match g'.compileVSCode E with
      | .error e => .error (wrapErr "failed to get vscode plugins" e)
      | .ok (some vscodeStage) =>
          .ok (State.merge [aptStage, systemStage, pypiStage, sshStage, vscodeStage])
      | .ok none =>
          .ok (State.merge [aptStage, systemStage, pypiStage, sshStage])

/-- The package-level `Compile(ctx)` driver reads the process-wide
`DefaultGraph` through a pointer but invokes the value-receiver
`Graph.Compile` on it, so the global descriptor is returned unchanged. -/
def globalCompile (E : ExternalEnv) (global : Graph) : Except String State × Graph :=
  (global.Compile E, global)

/-! ### The shell bootstrap manager (`pkg/shell/zsh.go`) -/

/-- The filesystem facts `generalManager.DownloadOrCache` observes or changes:
whether the oh-my-zsh cache directory exists. -/
structure ShellFS where
  ohMyZshDirExists : Bool
  deriving DecidableEq, Repr

/-- `generalManager.DownloadOrCache`: return early if the cache directory
already exists, otherwise clone the framework into it.  `statErr` models a
failure of `fileutil.DirExists`, `cloneErr` a failure of `git.PlainClone`; a
successful clone creates the directory. -/
def DownloadOrCache (statErr cloneErr : Option String) (fs : ShellFS) :
    Except String ShellFS :=
  match statErr with
  | some e => .error e
  | none =>
      if fs.ohMyZshDirExists then .ok fs
      else
        match cloneErr with
        | some e => .error e
        | none => .ok { ohMyZshDirExists := true }

/-! ### A scanner for install-layer `Run` nodes -/

mutual
/-- Whether a build state contains any `Run` node (a command-execution layer,
as produced only by the package-install builders). -/
def State.hasRun : State → Bool
  | .image _ => false
  | .scratch => false
  | .localDir _ => false
  | .run _ _ _ => true
  | .diff a b => a.hasRun || b.hasRun
  | .merge l => hasRunList l
  | .file b a => b.hasRun || a.hasRunAct

/-- `State.hasRun` on a file action's embedded source state. -/
def FileAction.hasRunAct : FileAction → Bool
  | .copy s _ _ _ => s.hasRun
  | _ => false

/-- `State.hasRun` over a list of states. -/
def hasRunList : List State → Bool
  | [] => false
  | s :: rest => s.hasRun || hasRunList rest
end

/-! ### Tokenizing generated install commands

`listedPackages` parses the package names back out of the command string that
`compileBuiltinSystemPackages` builds, so that "every package exactly once, in
insertion order" is a round-trip statement. -/

/-- Character-level predicate: not the space separator. -/
def notSpace (c : Char) : Bool := c ≠ ' '

/-- `dropWhile` never lengthens a list. -/
theorem lengthDropWhileLe (p : Char → Bool) (l : List Char) :
    (l.dropWhile p).length ≤ l.length := by
  induction l with
  | nil => simp
  | cons c cs ih =>
      simp only [List.dropWhile]
      cases p c
      · simp
      · simpa using Nat.le_succ_of_le ih

/-- Split a character list into maximal space-free tokens, discarding the
space separators. -/
def tokenize : List Char → List (List Char)
  | [] => []
  | c :: cs =>
      if h : c = ' ' then tokenize cs
      else
        ((c :: cs).takeWhile notSpace) :: tokenize ((c :: cs).dropWhile notSpace)
termination_by l => l.length
decreasing_by
  · simp only [List.length_cons]; omega
  · have hd : (c :: cs).dropWhile notSpace = cs.dropWhile notSpace := by
      simp [List.dropWhile, notSpace, h]
    have hle := lengthDropWhileLe notSpace cs
    simp only [hd, List.length_cons]
    omega

/-- Parse the package names back out of a built-in install command: strip the
fixed prefix and the closing quote, then split on spaces. -/
def listedPackages (cmd : String) : List String :=
  (tokenize ((cmd.data.drop builtinPrefix.data.length).dropLast)).map
    fun l => String.mk l

theorem takeWhile_notSpace_append (t rest : List Char) (h : ∀ c ∈ t, c ≠ ' ') :
    (t ++ rest).takeWhile notSpace = t ++ rest.takeWhile notSpace := by
  induction t with
  | nil => simp
  | cons c t ih =>
      have hc : notSpace c = true := by
        simpa [notSpace] using h c (by simp)
      simp only [List.cons_append, List.takeWhile_cons, hc, if_true]
      rw [ih fun x hx => h x (by simp [hx])]

theorem dropWhile_notSpace_append (t rest : List Char) (h : ∀ c ∈ t, c ≠ ' ') :
    (t ++ rest).dropWhile notSpace = rest.dropWhile notSpace := by
  induction t with
  | nil => simp
  | cons c t ih =>
      have hc : notSpace c = true := by
        simpa [notSpace] using h c (by simp)
      simp only [List.cons_append, List.dropWhile_cons, hc, if_true]
      exact ih fun x hx => h x (by simp [hx])

theorem tokenize_cons_space (cs : List Char) : tokenize (' ' :: cs) = tokenize cs := by
  rw [tokenize]
  simp

/-- `tokenize` recovers a space-free token placed before a separator (or the
end of the input). -/
theorem tokenize_token (t rest : List Char) (ht : t ≠ []) (hs : ∀ c ∈ t, c ≠ ' ')
    (hr : rest = [] ∨ ∃ rs, rest = ' ' :: rs) :
    tokenize (t ++ rest) = t :: tokenize rest := by
  obtain ⟨c, t', rfl⟩ : ∃ c t', t = c :: t' := by
    cases t with
    | nil => exact absurd rfl ht
    | cons c t' => exact ⟨c, t', rfl⟩
  have hc : ¬ c = ' ' := hs c (by simp)
  have htw : rest.takeWhile notSpace = [] := by
    rcases hr with rfl | ⟨rs, rfl⟩
    · rfl
    · simp [List.takeWhile_cons, notSpace]
  have hdw : rest.dropWhile notSpace = rest := by
    rcases hr with rfl | ⟨rs, rfl⟩
    · rfl
    · simp [List.dropWhile_cons, notSpace]
  rw [List.cons_append, tokenize]
  rw [dif_neg hc]
  rw [← List.cons_append, takeWhile_notSpace_append _ _ hs,
    dropWhile_notSpace_append _ _ hs, htw, hdw, List.append_nil]

/-- `tokenize` inverts the rendering that prepends a space before each
token. -/
theorem tokenize_render (toks : List (List Char))
    (h : ∀ t ∈ toks, t ≠ [] ∧ ' ' ∉ t) :
    tokenize ((toks.map (fun t => ' ' :: t)).flatten) = toks := by
  induction toks with
  | nil =>
      simp only [List.map_nil, List.flatten_nil]
      rw [tokenize]
  | cons t ts ih =>
      have ht := h t (by simp)
      simp only [List.map_cons, List.flatten_cons, List.cons_append]
      rw [tokenize_cons_space]
      rw [tokenize_token t _ ht.1 (fun c hc => by
            intro hsp
            exact ht.2 (hsp ▸ hc))
          (by
            cases ts with
            | nil => exact Or.inl rfl
            | cons t2 ts2 => exact Or.inr ⟨t2 ++ (ts2.map (fun t => ' ' :: t)).flatten, by simp⟩)]
      rw [ih fun x hx => h x (by simp [hx])]

theorem data_append (s t : String) : (s ++ t).data = s.data ++ t.data := rfl

/-- The character data of the accumulator fold that renders ` pkg` per
package. -/
theorem foldl_cmd_data (pkgs : List String) (pre : String) :
    (pkgs.foldl (fun acc p => acc ++ " " ++ p) pre).data
      = pre.data ++ (pkgs.map (fun p => ' ' :: p.data)).flatten := by
  induction pkgs generalizing pre with
  | nil => simp
  | cons p ps ih =>
      simp only [List.foldl_cons, List.map_cons, List.flatten_cons]
      rw [ih, data_append, data_append]
      simp

/-- Structural decomposition of the built-in install command. -/
theorem builtinInstallCmd_data (pkgs : List String) :
    (builtinInstallCmd pkgs).data
      = builtinPrefix.data ++ (pkgs.map (fun p => ' ' :: p.data)).flatten ++ ['"'] := by
  unfold builtinInstallCmd
  rw [data_append, foldl_cmd_data]

/-- Round trip: parsing the generated install command yields exactly the
package list, in order. -/
theorem listedPackages_builtin (pkgs : List String)
    (h : ∀ p ∈ pkgs, p.data ≠ [] ∧ ' ' ∉ p.data) :
    listedPackages (builtinInstallCmd pkgs) = pkgs := by
  unfold listedPackages
  rw [builtinInstallCmd_data, List.append_assoc, List.drop_left, List.dropLast_concat]
  have hmap : (pkgs.map (fun p => ' ' :: p.data))
      = (pkgs.map String.data).map (fun t => ' ' :: t) := by
    rw [List.map_map]
    rfl
  rw [hmap, tokenize_render (pkgs.map String.data)
    (by
      intro t htmem
      obtain ⟨p, hp, rfl⟩ := List.mem_map.mp htmem
      exact h p hp)]
  rw [List.map_map]
  have hid : ((fun l => String.mk l) ∘ String.data) = id := funext fun p => rfl
  rw [hid, List.map_id]

/-! ### Concrete fixtures -/

/-- A concrete external environment whose downloads all succeed. -/
def E0 : ExternalEnv :=
  { sshImage := "midi/midi-ssh:latest"
    cacheDir := "cache"
    download := fun _ => .ok ()
    pluginPath := fun p => p ++ "/extension" }

/-- The baseline interpreter base image state. -/
def apt0 : State := State.image "docker.io/library/python:3.8"

/-- The built-in install layer of the default descriptor on the baseline
base. -/
def binst0 : State :=
  State.run apt0 (builtinInstallCmd ["curl", "openssh-client"]) aptCacheMounts

/-- The auxiliary-tool layer under `E0`. -/
def ssh0 : State :=
  State.file State.scratch
    (.copy (State.image "midi/midi-ssh:latest") "usr/bin/midi-ssh"
      "/var/midi/bin/midi-ssh" true)

/-- The default descriptor with both GPU version fields set. -/
def gGPU : Graph := { NewGraph with CUDA := some "11.6", CUDNN := some "8" }

/-- The default descriptor with only the GPU toolkit version set. -/
def gHalfGPU : Graph := { NewGraph with CUDA := some "11.6" }

/-- The default descriptor with three requested IDE plugins. -/
def gPlugins : Graph :=
  { NewGraph with
      VSCodePlugins := ["pub.alpha-1.0.0", "pub.beta-2.0.0", "pub.gamma-3.0.0"] }

/-- An environment in which downloading the second plugin of `gPlugins` fails
with an error that does not mention the plugin. -/
def EFail : ExternalEnv :=
  { E0 with
      download := fun p =>
        if p = "pub.beta-2.0.0" then .error "network timeout" else .ok () }

/-! ### Claim C6 -/

/-- Claim C6, counterexample: base selection is not total.  For a descriptor
with only `gpuToolkitVersion` set (`gpuLibraryVersion` absent), base selection
reaches a dereference of the absent field (`*g.CUDNN` on a nil pointer),
modelled as `none`, instead of constructing a GPU image name. -/
theorem base_selection_not_total :
    gHalfGPU.CUDA = some "11.6" ∧ gHalfGPU.CUDNN = none ∧
      gHalfGPU.compileBase = none :=
  ⟨rfl, rfl, rfl⟩

/-- Claim C6, amended: when both GPU fields are absent, base selection
returns the fixed baseline interpreter image; when both are present it
returns the GPU image named from both versions and the OS (appending the
language packages); when exactly one is present it dereferences the absent
field and fails (it is not total). -/
theorem base_selection_cases (g : Graph) :
    (g.CUDA = none → g.CUDNN = none →
      g.compileBase = some (g, State.image "docker.io/library/python:3.8")) ∧
    (∀ c d, g.CUDA = some c → g.CUDNN = some d →
      g.compileBase = some
        ({ g with BuiltinSystemPackages :=
            g.BuiltinSystemPackages ++ [g.Language, g.Language ++ "-pip"] },
         State.image ("nvidia/cuda:" ++ c ++ ".0-cudnn" ++ d ++ "-devel-" ++ g.OS))) ∧
    (∀ c, g.CUDA = some c → g.CUDNN = none → g.compileBase = none) ∧
    (∀ d, g.CUDA = none → g.CUDNN = some d → g.compileBase = none) := by
  refine ⟨?_, ?_, ?_, ?_⟩
  · intro h1 h2
    simp [Graph.compileBase, h1, h2]
  · intro c d h1 h2
    simp [Graph.compileBase, Graph.compileCUDAPackages, h1, h2]
  · intro c h1 h2
    simp [Graph.compileBase, Graph.compileCUDAPackages, h1, h2]
  · intro d h1 h2
    simp [Graph.compileBase, Graph.compileCUDAPackages, h1, h2]

/-- Witness for `base_selection_cases` at concrete descriptors. -/
theorem base_selection_cases_witness :
    NewGraph.compileBase = some (NewGraph, State.image "docker.io/library/python:3.8") ∧
    gGPU.compileBase = some
      ({ gGPU with BuiltinSystemPackages :=
          gGPU.BuiltinSystemPackages ++ [gGPU.Language, gGPU.Language ++ "-pip"] },
       State.image ("nvidia/cuda:" ++ "11.6" ++ ".0-cudnn" ++ "8" ++ "-devel-" ++ gGPU.OS)) ∧
    gHalfGPU.compileBase = none :=
  ⟨(base_selection_cases NewGraph).1 rfl rfl,
   (base_selection_cases gGPU).2.1 "11.6" "8" rfl rfl,
   (base_selection_cases gHalfGPU).2.2.1 "11.6" rfl rfl⟩

/-! ### Claim C8 -/

/-- Claim C8: each optional-configuration layer builder short-circuits when
its field is absent: no custom APT source, no PyPI mirror, an empty language
package list, and an empty user system package list each return the input
state unchanged and produce no layer. -/
theorem absent_config_passthrough (g : Graph) (root : State) :
    (g.UbuntuAPTSource = none → g.compileUbuntuAPT root = root) ∧
    (g.PyPIMirror = none → g.compilePyPIMirror root = root) ∧
    (g.PyPIPackages = [] → g.compilePyPIPackages root = root) ∧
    (g.SystemPackages = [] → g.compileSystemPackages root = root) := by
  refine ⟨?_, ?_, ?_, ?_⟩
  · intro h
    simp [Graph.compileUbuntuAPT, h]
  · intro h
    simp [Graph.compilePyPIMirror, h]
  · intro h
    simp [Graph.compilePyPIPackages, h]
  · intro h
    simp [Graph.compileSystemPackages, h]

/-- Witness for `absent_config_passthrough` on the default descriptor. -/
theorem absent_config_passthrough_witness :
    NewGraph.compileUbuntuAPT State.scratch = State.scratch ∧
    NewGraph.compilePyPIMirror State.scratch = State.scratch ∧
    NewGraph.compilePyPIPackages State.scratch = State.scratch ∧
    NewGraph.compileSystemPackages State.scratch = State.scratch :=
  ⟨(absent_config_passthrough NewGraph State.scratch).1 rfl,
   (absent_config_passthrough NewGraph State.scratch).2.1 rfl,
   (absent_config_passthrough NewGraph State.scratch).2.2.1 rfl,
   (absent_config_passthrough NewGraph State.scratch).2.2.2 rfl⟩

/-! ### Claim C9 -/

/-- Claim C9: the framework-clone operation is idempotent.  If the cache
directory already exists it returns success without cloning (the clone
outcome is irrelevant), and after any successful invocation a repeat
invocation is a no-op returning no error. -/
theorem download_or_cache_idempotent (statErr cloneErr : Option String)
    (fs fs' : ShellFS) :
    (fs.ohMyZshDirExists = true →
      ∀ ce, DownloadOrCache none ce fs = .ok fs) ∧
    (DownloadOrCache statErr cloneErr fs = .ok fs' →
      ∀ ce2, DownloadOrCache none ce2 fs' = .ok fs') := by
  constructor
  · intro hex ce
    simp [DownloadOrCache, hex]
  · intro h ce2
    have hex : fs'.ohMyZshDirExists = true := by
      unfold DownloadOrCache at h
      cases statErr with
      | some e => simp at h
      | none =>
          by_cases hfs : fs.ohMyZshDirExists
          · simp [hfs] at h
            simp [← h, hfs]
          · simp [hfs] at h
            cases cloneErr with
            | some e => simp at h
            | none =>
                simp at h
                simp [← h]
    simp [DownloadOrCache, hex]

/-- Witness for `download_or_cache_idempotent`: a first successful clone into
an absent directory, then a repeat invocation that returns success even
though a fresh clone would fail. -/
theorem download_or_cache_idempotent_witness :
    DownloadOrCache none none ⟨false⟩ = .ok ⟨true⟩ ∧
    DownloadOrCache none (some "clone would fail") ⟨true⟩ = .ok ⟨true⟩ :=
  ⟨rfl,
   (download_or_cache_idempotent none none ⟨false⟩ ⟨true⟩).2 rfl
     (some "clone would fail")⟩

/-! ### Claim C4 -/

/-- Claim C4: compilation is idempotent.  The driver invokes the
value-receiver `Compile` on the process-wide descriptor, so the descriptor
survives a compilation unchanged and a second compilation from it produces a
structurally identical result. -/
theorem compile_idempotent (E : ExternalEnv) (g : Graph) :
    (globalCompile E g).2 = g ∧
    (globalCompile E ((globalCompile E g).2)).1 = (globalCompile E g).1 ∧
    (globalCompile E ((globalCompile E g).2)).2 = g :=
  ⟨rfl, rfl, rfl⟩

/-! ### Claim C1 -/

/-- Claim C1: the assembler chains base → custom-source injection (aptStage)
→ built-in install → mirror injection → language install diffed against
aptStage → user-system install diffed against aptStage → auxiliary tool, and
merges `[aptStage, systemDiff, languageDiff, toolStage]`, appending the plugin
layer exactly when at least one plugin was requested; its absence yields the
four-element merge with no error and no placeholder. -/
theorem compile_merge_order (E : ExternalEnv) (g g' : Graph) (base apt : State)
    (hbase : g.compileBase = some (g', base))
    (hapt : apt = g'.compileUbuntuAPT base) :
    (g'.VSCodePlugins = [] →
      g.Compile E = .ok (State.merge
        [apt,
         State.diff apt (g'.compileSystemPackages apt),
         State.diff apt (g'.compilePyPIPackages
           (g'.compilePyPIMirror (g'.compileBuiltinSystemPackages apt))),
         g'.copyMidiSSHServer E])) ∧
    (∀ layers, g'.VSCodePlugins ≠ [] →
      vscodeLayers E g'.VSCodePlugins = .ok layers →
      g.Compile E = .ok (State.merge
        [apt,
         State.diff apt (g'.compileSystemPackages apt),
         State.diff apt (g'.compilePyPIPackages
           (g'.compilePyPIMirror (g'.compileBuiltinSystemPackages apt))),
         g'.copyMidiSSHServer E,
         State.merge layers])) := by
  subst hapt
  constructor
  · intro hpl
    simp [Graph.Compile, hbase, Graph.compileVSCode, hpl]
  · intro layers hne hlay
    simp [Graph.Compile, hbase, Graph.compileVSCode, hne, hlay]

/-- Witness for `compile_merge_order`: the default descriptor compiles to the
four-element merge (no plugin layer, no error). -/
theorem compile_merge_order_witness :
    NewGraph.Compile E0 = .ok (State.merge
      [apt0, State.diff apt0 apt0, State.diff apt0 binst0, ssh0]) :=
  (compile_merge_order E0 NewGraph NewGraph
    (State.image "docker.io/library/python:3.8") apt0 rfl rfl).1 rfl

/-! ### Claim C2 -/

/-- Claim C2, counterexample: the default descriptor has empty
`userSystemPackages`, `languagePackages` and `ideExtensions`, no GPU fields
and no overrides, yet its assembled graph is a four-way merge that still
contains a package-install `Run` layer (the built-in install, surviving
inside the language-diff slot) — not just the base image and the tool
layer. -/
theorem minimal_graph_contains_install_run :
    NewGraph.SystemPackages = [] ∧ NewGraph.PyPIPackages = [] ∧
    NewGraph.VSCodePlugins = [] ∧ NewGraph.CUDA = none ∧ NewGraph.CUDNN = none ∧
    NewGraph.UbuntuAPTSource = none ∧ NewGraph.PyPIMirror = none ∧
    NewGraph.Compile E0 = .ok (State.merge
      [apt0, State.diff apt0 apt0, State.diff apt0 binst0, ssh0]) ∧
    (State.merge [apt0, State.diff apt0 apt0, State.diff apt0 binst0, ssh0]).hasRun
      = true :=
  ⟨rfl, rfl, rfl, rfl, rfl, rfl, rfl, rfl, rfl⟩

/-- Claim C2, amended: for every descriptor with those fields empty and no
GPU/override fields, the assembled graph is the four-way merge of the
baseline base image, an empty user-system diff, the language-diff slot
holding the built-in install layer (empty only if the built-in list is
empty), and the auxiliary tool layer — with no custom-source or mirror layers
and no user-requested install layers. -/
theorem minimal_graph_compile (E : ExternalEnv) (g : Graph)
    (h1 : g.CUDA = none) (h2 : g.CUDNN = none)
    (h3 : g.UbuntuAPTSource = none) (h4 : g.PyPIMirror = none)
    (h5 : g.SystemPackages = []) (h6 : g.PyPIPackages = [])
    (h7 : g.VSCodePlugins = []) :
    g.Compile E = .ok (State.merge
      [State.image "docker.io/library/python:3.8",
       State.diff (State.image "docker.io/library/python:3.8")
         (State.image "docker.io/library/python:3.8"),
       State.diff (State.image "docker.io/library/python:3.8")
         (g.compileBuiltinSystemPackages (State.image "docker.io/library/python:3.8")),
       g.copyMidiSSHServer E]) := by
  have hbase : g.compileBase
      = some (g, State.image "docker.io/library/python:3.8") := by
    simp [Graph.compileBase, h1, h2]
  simp [Graph.Compile, hbase, Graph.compileVSCode, h7,
    Graph.compileUbuntuAPT, h3, Graph.compilePyPIMirror, h4,
    Graph.compilePyPIPackages, h6, Graph.compileSystemPackages, h5]

/-- Witness for `minimal_graph_compile` on the default descriptor. -/
theorem minimal_graph_compile_witness :
    NewGraph.Compile E0 = .ok (State.merge
      [State.image "docker.io/library/python:3.8",
       State.diff (State.image "docker.io/library/python:3.8")
         (State.image "docker.io/library/python:3.8"),
       State.diff (State.image "docker.io/library/python:3.8")
         (NewGraph.compileBuiltinSystemPackages
           (State.image "docker.io/library/python:3.8")),
       NewGraph.copyMidiSSHServer E0]) :=
  minimal_graph_compile E0 NewGraph rfl rfl rfl rfl rfl rfl rfl

/-! ### Claim C3 -/

/-- Claim C3, counterexample: base selection appends the language packages on
every invocation, so invoking it twice on the same descriptor instance (the
second call receiving the first call's mutated instance) makes the language
appear twice, not exactly once. -/
theorem double_base_selection_duplicates :
    ∃ g1 s1 g2 s2,
      gGPU.compileBase = some (g1, s1) ∧ g1.compileBase = some (g2, s2) ∧
      g2.BuiltinSystemPackages
        = ["curl", "openssh-client", "python", "python-pip", "python", "python-pip"] ∧
      g2.BuiltinSystemPackages.count "python" = 2 :=
  ⟨_, _, _, _, rfl, rfl, rfl, by decide⟩

/-- Claim C3, amended: one invocation of base selection (which is all a
single compilation performs) appends the language and its pip binary after
the original packages, and each then occurs exactly once provided it was not
already in the list; each further invocation on the mutated instance appends
them again. -/
theorem gpu_packages_appended_once (g : Graph) (c d : String)
    (h1 : g.CUDA = some c) (h2 : g.CUDNN = some d)
    (h3 : g.Language ∉ g.BuiltinSystemPackages)
    (h4 : (g.Language ++ "-pip") ∉ g.BuiltinSystemPackages) :
    ∃ st, g.compileBase = some
        ({ g with BuiltinSystemPackages :=
            g.BuiltinSystemPackages ++ [g.Language, g.Language ++ "-pip"] }, st) ∧
      (g.BuiltinSystemPackages ++ [g.Language, g.Language ++ "-pip"]).count
          g.Language = 1 ∧
      (g.BuiltinSystemPackages ++ [g.Language, g.Language ++ "-pip"]).count
          (g.Language ++ "-pip") = 1 := by
  have hne : g.Language ≠ g.Language ++ "-pip" := by
    intro hcontra
    have hlen := congrArg (fun s => s.data.length) hcontra
    simp only [data_append, List.length_append] at hlen
    have h4len : ("-pip" : String).data.length = 4 := rfl
    rw [h4len] at hlen
    omega
  refine ⟨State.image ("nvidia/cuda:" ++ c ++ ".0-cudnn" ++ d ++ "-devel-" ++ g.OS),
    ?_, ?_, ?_⟩
  · simp [Graph.compileBase, Graph.compileCUDAPackages, h1, h2]
  · rw [List.count_append, List.count_eq_zero.mpr h3]
    simp [List.count_cons, hne.symm]
  · rw [List.count_append, List.count_eq_zero.mpr h4]
    simp [List.count_cons, hne]

/-- Witness for `gpu_packages_appended_once` on the GPU descriptor. -/
theorem gpu_packages_appended_once_witness :
    ∃ st, gGPU.compileBase = some
        ({ gGPU with BuiltinSystemPackages :=
            gGPU.BuiltinSystemPackages ++ [gGPU.Language, gGPU.Language ++ "-pip"] }, st) ∧
      (gGPU.BuiltinSystemPackages ++ [gGPU.Language, gGPU.Language ++ "-pip"]).count
          gGPU.Language = 1 ∧
      (gGPU.BuiltinSystemPackages ++ [gGPU.Language, gGPU.Language ++ "-pip"]).count
          (gGPU.Language ++ "-pip") = 1 :=
  gpu_packages_appended_once gGPU "11.6" "8" rfl rfl (by decide) (by decide)

/-! ### Claim C5 -/

/-- Claim C5, counterexample: when downloading the second of three plugins
fails with an underlying error that does not mention the plugin, the reported
error carries only the step context — the failing plugin's identifier does
not occur anywhere in the message. -/
theorem plugin_error_lacks_identifier :
    gPlugins.Compile EFail
      = .error "failed to get vscode plugins: network timeout" ∧
    ¬ ("pub.beta-2.0.0".data
        <:+: ("failed to get vscode plugins: network timeout" : String).data) :=
  ⟨rfl, by decide⟩

/-- Claim C5, amended: a failure materializing the second plugin stops the
loop at once — the whole compilation aborts with the underlying error wrapped
in the step context (`failed to get vscode plugins`), independently of the
downloader's behaviour on the remaining plugins (so no layer reflecting the
third plugin is produced); the failing plugin's identifier appears only if
the collaborator's own error contains it. -/
theorem plugin_failure_short_circuits (E : ExternalEnv) (g g' : Graph)
    (base : State) (p1 p2 : String) (rest : List String) (e : String)
    (hbase : g.compileBase = some (g', base))
    (hlist : g'.VSCodePlugins = p1 :: p2 :: rest)
    (hd1 : E.download p1 = .ok ())
    (hd2 : E.download p2 = .error e) :
    g.Compile E = .error (wrapErr "failed to get vscode plugins" e) := by
  have hv : vscodeLayers E (p1 :: p2 :: rest) = .error e := by
    simp [vscodeLayers, hd1, hd2]
  simp [Graph.Compile, hbase, Graph.compileVSCode, hlist, hv]

/-- Witness for `plugin_failure_short_circuits` on the three-plugin
descriptor whose second download fails. -/
theorem plugin_failure_short_circuits_witness :
    gPlugins.Compile EFail
      = .error (wrapErr "failed to get vscode plugins" "network timeout") :=
  plugin_failure_short_circuits EFail gPlugins gPlugins
    (State.image "docker.io/library/python:3.8")
    "pub.alpha-1.0.0" "pub.beta-2.0.0" ["pub.gamma-3.0.0"] "network timeout"
    rfl rfl rfl rfl

/-! ### Claim C7 -/

/-- Claim C7: for a non-empty built-in package list, the builder emits a
`Run` whose command lists every package exactly once in insertion order
(parsing the command recovers exactly the list) after a prefix that performs
the package manager's update command first. -/
theorem builtin_install_lists_packages (g : Graph) (root : State)
    (hne : g.BuiltinSystemPackages ≠ [])
    (hwf : ∀ p ∈ g.BuiltinSystemPackages, p.data ≠ [] ∧ ' ' ∉ p.data) :
    g.compileBuiltinSystemPackages root
        = State.run root (builtinInstallCmd g.BuiltinSystemPackages) aptCacheMounts
      ∧ listedPackages (builtinInstallCmd g.BuiltinSystemPackages)
          = g.BuiltinSystemPackages
      ∧ ∃ tail, (builtinInstallCmd g.BuiltinSystemPackages).data
          = ("sh -c \"apt-get update && apt-get install -y --no-install-recommends" : String).data
              ++ tail := by
  refine ⟨?_, listedPackages_builtin _ hwf, ?_⟩
  · simp [Graph.compileBuiltinSystemPackages, hne]
  · refine ⟨(g.BuiltinSystemPackages.map (fun p => ' ' :: p.data)).flatten ++ ['"'], ?_⟩
    rw [builtinInstallCmd_data, List.append_assoc]
    rfl

/-- Witness for `builtin_install_lists_packages` on the default built-in
package list. -/
theorem builtin_install_lists_packages_witness :
    NewGraph.compileBuiltinSystemPackages State.scratch
        = State.run State.scratch (builtinInstallCmd ["curl", "openssh-client"])
            aptCacheMounts
      ∧ listedPackages (builtinInstallCmd ["curl", "openssh-client"])
          = ["curl", "openssh-client"] := by
  have h := builtin_install_lists_packages NewGraph State.scratch
    (by decide) (by decide)
  exact ⟨h.1, h.2.1⟩

/-! ### Claim C10 -/

/-- Claim C10, counterexample: with the default descriptor (empty language
package list but non-empty built-in list), the language-stage entry of the
merge is `Diff(aptStage, builtinStage)` — not the empty
`Diff(aptStage, aptStage)` the claim asserts. -/
theorem language_stage_not_empty_diff :
    NewGraph.PyPIPackages = [] ∧
    NewGraph.Compile E0 = .ok (State.merge
      [apt0, State.diff apt0 apt0, State.diff apt0 binst0, ssh0]) ∧
    State.diff apt0 binst0 ≠ State.diff apt0 apt0 := by
  refine ⟨rfl, rfl, ?_⟩
  intro hcontra
  injection hcontra with h1 h2
  exact State.noConfusion h2

/-- Claim C10, amended: the final merge always has exactly four entries
(five when plugins are requested); an empty user-system list makes its entry
`Diff(aptStage, aptStage)`, while an empty language list makes its entry
`Diff(aptStage, mirrorStage)`, which collapses to `Diff(aptStage, aptStage)`
only when the built-in list is also empty and no mirror is configured. -/
theorem merge_list_shape (E : ExternalEnv) (g g' : Graph) (base apt : State)
    (hbase : g.compileBase = some (g', base))
    (hapt : apt = g'.compileUbuntuAPT base) :
    (g'.VSCodePlugins = [] →
      ∃ l, g.Compile E = .ok (State.merge l) ∧ l.length = 4) ∧
    (∀ layers, g'.VSCodePlugins ≠ [] →
      vscodeLayers E g'.VSCodePlugins = .ok layers →
      ∃ l, g.Compile E = .ok (State.merge l) ∧ l.length = 5) ∧
    (g'.SystemPackages = [] →
      State.diff apt (g'.compileSystemPackages apt) = State.diff apt apt) ∧
    (g'.PyPIPackages = [] → g'.PyPIMirror = none → g'.BuiltinSystemPackages = [] →
      State.diff apt (g'.compilePyPIPackages
        (g'.compilePyPIMirror (g'.compileBuiltinSystemPackages apt)))
        = State.diff apt apt) := by
  subst hapt
  refine ⟨?_, ?_, ?_, ?_⟩
  · intro hpl
    refine ⟨[g'.compileUbuntuAPT base,
      State.diff (g'.compileUbuntuAPT base)
        (g'.compileSystemPackages (g'.compileUbuntuAPT base)),
      State.diff (g'.compileUbuntuAPT base)
        (g'.compilePyPIPackages (g'.compilePyPIMirror
          (g'.compileBuiltinSystemPackages (g'.compileUbuntuAPT base)))),
      g'.copyMidiSSHServer E], ?_, rfl⟩
    simp [Graph.Compile, hbase, Graph.compileVSCode, hpl]
  · intro layers hne hlay
    refine ⟨[g'.compileUbuntuAPT base,
      State.diff (g'.compileUbuntuAPT base)
        (g'.compileSystemPackages (g'.compileUbuntuAPT base)),
      State.diff (g'.compileUbuntuAPT base)
        (g'.compilePyPIPackages (g'.compilePyPIMirror
          (g'.compileBuiltinSystemPackages (g'.compileUbuntuAPT base)))),
      g'.copyMidiSSHServer E, State.merge layers], ?_, rfl⟩
    simp [Graph.Compile, hbase, Graph.compileVSCode, hne, hlay]
  · intro h5
    simp [Graph.compileSystemPackages, h5]
  · intro h6 h4 hB
    simp [Graph.compilePyPIPackages, h6, Graph.compilePyPIMirror, h4,
      Graph.compileBuiltinSystemPackages, hB]

/-- Witness for `merge_list_shape` on the default descriptor. -/
theorem merge_list_shape_witness :
    (∃ l, NewGraph.Compile E0 = .ok (State.merge l) ∧ l.length = 4) ∧
    State.diff apt0 (NewGraph.compileSystemPackages apt0) = State.diff apt0 apt0 := by
  have h := merge_list_shape E0 NewGraph NewGraph
    (State.image "docker.io/library/python:3.8") apt0 rfl rfl
  exact ⟨h.1 rfl, h.2.2.1 rfl⟩

end MidiIR
